import Mathlib

/-!
Verification of the SCM notebook (`Notebooks/Chapter_02.ipynb`).

The notebook's functional core consists of:
* `BookSCM` — a sampler for the binary scenario (cell 4);
* a continuous scenario built from plain cells (cells 9, 11, 13):
  observational build, intervention on A, intervention on B;
* `CounterFactualSCM` — the abduction / modification / prediction engine
  (cell 18).

Python numbers are embedded as rationals (`ℚ`); numpy arrays as `List`s.
Python's division raises `ZeroDivisionError` on a zero denominator, so
`abduct` is embedded as an `Option`-valued function that is `none` exactly
when the denominator `2*t - 1` is zero.
-/

/-- The value a numpy boolean contributes when promoted to float:
`True ↦ 1.0`, `False ↦ 0.0`. -/
def boolToRat (b : Bool) : ℚ := if b then 1 else 0

/-! ## CounterFactualSCM (notebook cell 18) -/

/-- Embeds the Python class `CounterFactualSCM`. The class declares no
instance fields: every method is a function of its explicit arguments. -/
structure CounterFactualSCM

/-- Embeds `CounterFactualSCM.abduct`:
`return (t + y - 1) / (2*t - 1)`. Python raises `ZeroDivisionError` when
the denominator is zero, embedded as `none`. -/
def CounterFactualSCM.abduct (_e : CounterFactualSCM) (t y : ℚ) : Option ℚ :=
  if 2 * t - 1 = 0 then none else some ((t + y - 1) / (2 * t - 1))

/-- Embeds `CounterFactualSCM.modify`:
`return lambda u: t * u + (t - 1) * (u - 1)`. -/
def CounterFactualSCM.modify (_e : CounterFactualSCM) (t : ℚ) : ℚ → ℚ :=
  fun u => t * u + (t - 1) * (u - 1)

/-- Embeds `CounterFactualSCM.predict`:
`return self.modify(t)(u)`. -/
def CounterFactualSCM.predict (e : CounterFactualSCM) (u t : ℚ) : ℚ :=
  e.modify t u

/-- The instance built in notebook cell 19: `coffee = CounterFactualSCM()`. -/
def coffee : CounterFactualSCM := {}

/-- Claim C1: for every observed treatment `t ≠ 0.5` and outcome `y`,
`abduct t y` returns exactly `(t + y - 1) / (2*t - 1)`, the unique solution
for `u` of the structural equation `y = t*u + (t-1)*(u-1)`. -/
theorem abduct_unique_solution (e : CounterFactualSCM) (t y : ℚ)
    (h : t ≠ 1/2) :
    e.abduct t y = some ((t + y - 1) / (2 * t - 1)) ∧
    ∀ u : ℚ, t * u + (t - 1) * (u - 1) = y ↔ u = (t + y - 1) / (2 * t - 1) := by
  have hd : 2 * t - 1 ≠ 0 := by
    intro h0
    apply h
    linarith
  refine ⟨by simp [CounterFactualSCM.abduct, hd], fun u => ?_⟩
  rw [eq_div_iff hd]
  constructor
  · intro hu
    linarith
  · intro hu
    linarith

/-- Witness for C1: at `t = 1`, `y = 1` the hypothesis holds and abduction
returns the closed-form solution. -/
theorem abduct_unique_solution_witness :
    coffee.abduct 1 1 = some ((1 + 1 - 1) / (2 * 1 - 1)) :=
  (abduct_unique_solution coffee 1 1 (by norm_num)).1

/-- Claim C2: for `t ∈ {0,1}` and any rational `y`, abduction followed by
prediction under the same treatment recovers the observed outcome exactly. -/
theorem abduct_predict_roundtrip (e : CounterFactualSCM) (t y : ℚ)
    (h : t = 0 ∨ t = 1) :
    ∃ u : ℚ, e.abduct t y = some u ∧ e.predict u t = y := by
  rcases h with h | h <;> subst h
  · refine ⟨(0 + y - 1) / (2 * 0 - 1), ?_, ?_⟩
    · norm_num [CounterFactualSCM.abduct]
    · simp [CounterFactualSCM.predict, CounterFactualSCM.modify]
      ring_nf
  · refine ⟨(1 + y - 1) / (2 * 1 - 1), ?_, ?_⟩
    · norm_num [CounterFactualSCM.abduct]
    · simp [CounterFactualSCM.predict, CounterFactualSCM.modify]
      ring_nf

/-- Witness for C2: at `t = 1`, `y = 0` the round trip recovers `0`. -/
theorem abduct_predict_roundtrip_witness :
    ∃ u : ℚ, coffee.abduct 1 0 = some u ∧ coffee.predict u 1 = 0 :=
  abduct_predict_roundtrip coffee 1 0 (Or.inr rfl)

/-- Claim C7: calling `abduct` with `t = 0.5` fails (the embedded result is
`none`, matching Python's `ZeroDivisionError`) rather than returning any
numeric value. -/
theorem abduct_half_fails (e : CounterFactualSCM) (y : ℚ) :
    e.abduct (1/2) y = none := by
  simp [CounterFactualSCM.abduct]

/-- Claim C8: the worked example — `abduct 1 1 = 1` and `predict 1 0 = 0`. -/
theorem worked_example :
    coffee.abduct 1 1 = some 1 ∧ coffee.predict 1 0 = 0 := by
  constructor
  · norm_num [CounterFactualSCM.abduct]
  · norm_num [CounterFactualSCM.predict, CounterFactualSCM.modify]

/-- Claim C9: `modify` is stateless — for any instance and any `t₁`, `t₂`,
the two returned equations evaluated at the same `u` give exactly
`t₁*u + (t₁-1)*(u-1)` and `t₂*u + (t₂-1)*(u-1)`, each value depending only
on its own `t` and `u` (evaluation of one never alters the other, and the
result is the same on every instance). -/
theorem modify_stateless (e e' : CounterFactualSCM) (t₁ t₂ u : ℚ) :
    e.modify t₁ u = t₁ * u + (t₁ - 1) * (u - 1) ∧
    e.modify t₂ u = t₂ * u + (t₂ - 1) * (u - 1) ∧
    e.modify t₁ u = e'.modify t₁ u := ⟨rfl, rfl, rfl⟩

/-- Claim C10: under the binary-treatment precondition `t ∈ {0,1}` the
denominator `2*t - 1` is exactly `-1` or `1`, so the division in `abduct`
is safe and `abduct` is total on this domain. -/
theorem abduct_total_on_binary (e : CounterFactualSCM) (t y : ℚ)
    (h : t = 0 ∨ t = 1) :
    (2 * t - 1 = -1 ∨ 2 * t - 1 = 1) ∧ ∃ u : ℚ, e.abduct t y = some u := by
  rcases h with h | h <;> subst h
  · refine ⟨Or.inl (by norm_num), (0 + y - 1) / (2 * 0 - 1), ?_⟩
    norm_num [CounterFactualSCM.abduct]
  · refine ⟨Or.inr (by norm_num), (1 + y - 1) / (2 * 1 - 1), ?_⟩
    norm_num [CounterFactualSCM.abduct]

/-- Witness for C10: at `t = 0`, `y = 1` the division is safe. -/
theorem abduct_total_on_binary_witness :
    (2 * (0:ℚ) - 1 = -1 ∨ 2 * (0:ℚ) - 1 = 1) ∧
    ∃ u : ℚ, coffee.abduct 0 1 = some u :=
  abduct_total_on_binary coffee 0 1 (Or.inl rfl)

/-! ## BookSCM, binary scenario (notebook cell 4) -/

/-- Embeds `a = u_0 > 0.61` from `BookSCM.sample`: elementwise strict
comparison of the uniform draws against `0.61`. -/
def sampleA (u0 : List ℚ) : List Bool :=
  u0.map (fun x => decide (x > 61/100))

/-- Embeds `b = (a + 0.5 * u_1) > 0.2` from `BookSCM.sample`: the boolean
vector `a` is promoted to floats, scaled noise is added, and the result is
compared against `0.2` elementwise. -/
def sampleB (a : List Bool) (u1 : List ℚ) : List Bool :=
  (a.zip u1).map (fun p => decide (boolToRat p.1 + 1/2 * p.2 > 1/5))

/-- Embeds the Python class `BookSCM`. Its `__init__` stores `random_seed`
and two frozen distribution objects; no other state. -/
structure BookSCM where
  random_seed : Option ℕ

/-- Embeds `BookSCM.sample` as a function of the drawn noise vectors: given
the uniform draws `u0` and the normal draws `u1`, it returns the pair
`(a, b)` with `a = u_0 > 0.61` and `b = (a + 0.5*u_1) > 0.2`. -/
def BookSCM.sample (_scm : BookSCM) (u0 u1 : List ℚ) :
    List Bool × List Bool :=
  (sampleA u0, sampleB (sampleA u0) u1)

/-- Elementwise description of `sampleA`. -/
theorem sampleA_get (u0 : List ℚ) (i : ℕ) (x : ℚ) (hx : u0[i]? = some x) :
    (sampleA u0)[i]? = some (decide (x > 61/100)) := by
  simp [sampleA, List.getElem?_map, hx]

/-- Elementwise description of `sampleB`. -/
theorem sampleB_get (a : List Bool) (u1 : List ℚ) (i : ℕ) (x : Bool) (x' : ℚ)
    (ha : a[i]? = some x) (hu : u1[i]? = some x') :
    (sampleB a u1)[i]? = some (decide (boolToRat x + 1/2 * x' > 1/5)) := by
  induction a generalizing u1 i with
  | nil => simp at ha
  | cons hd tl ih =>
    cases u1 with
    | nil => simp at hu
    | cons hd' tl' =>
      cases i with
      | zero =>
        simp at ha hu
        simp [sampleB, ha, hu]
      | succ j =>
        simp at ha hu
        simpa [sampleB] using ih tl' j ha hu

/-- Claim C3: for every positive `n` and noise vectors `u0`, `u1` of length
`n`, `BookSCM.sample` returns boolean sequences `a`, `b` of length exactly
`n` with, elementwise, `a[i] = (u0[i] > 0.61)` and
`b[i] = ((aNum[i] + 0.5*u1[i]) > 0.2)` where `aNum[i]` is `1` when `a[i]`
is true and `0` otherwise. -/
theorem sample_spec (scm : BookSCM) (u0 u1 : List ℚ) (n : ℕ) (_hn : 0 < n)
    (h0 : u0.length = n) (h1 : u1.length = n) :
    (scm.sample u0 u1).1.length = n ∧
    (scm.sample u0 u1).2.length = n ∧
    (∀ (i : ℕ) (x : ℚ), u0[i]? = some x →
      ((scm.sample u0 u1).1)[i]? = some (decide (x > 61/100))) ∧
    (∀ (i : ℕ) (x x' : ℚ), u0[i]? = some x → u1[i]? = some x' →
      ((scm.sample u0 u1).2)[i]? =
        some (decide (boolToRat (decide (x > 61/100)) + 1/2 * x' > 1/5))) := by
  refine ⟨?_, ?_, ?_, ?_⟩
  · simp [BookSCM.sample, sampleA, h0]
  · simp [BookSCM.sample, sampleA, sampleB, h0, h1]
  · intro i x hx
    exact sampleA_get u0 i x hx
  · intro i x x' hx hx'
    exact sampleB_get (sampleA u0) u1 i _ x' (sampleA_get u0 i x hx) hx'

/-- Witness for C3: `n = 2`, `u0 = [0.7, 0.3]`, `u1 = [1, -1]`. -/
theorem sample_spec_witness :
    ((BookSCM.mk (some 42)).sample [7/10, 3/10] [1, -1]).1.length = 2 ∧
    ((BookSCM.mk (some 42)).sample [7/10, 3/10] [1, -1]).2.length = 2 ∧
    (∀ (i : ℕ) (x : ℚ), ([(7:ℚ)/10, 3/10][i]? = some x) →
      (((BookSCM.mk (some 42)).sample [7/10, 3/10] [1, -1]).1)[i]? =
        some (decide (x > 61/100))) ∧
    (∀ (i : ℕ) (x x' : ℚ), ([(7:ℚ)/10, 3/10][i]? = some x) →
      ([(1:ℚ), -1][i]? = some x') →
      (((BookSCM.mk (some 42)).sample [7/10, 3/10] [1, -1]).2)[i]? =
        some (decide (boolToRat (decide (x > 61/100)) + 1/2 * x' > 1/5))) :=
  sample_spec (BookSCM.mk (some 42)) [7/10, 3/10] [1, -1] 2
    (by norm_num) (by simp) (by simp)

/-! ## Continuous scenario (notebook cells 9, 11, 13) -/

/-- The variables bound by the continuous-scenario cells: the two noise
draws `u_0`, `u_1` and the endogenous vectors `a`, `b`. -/
structure ContState where
  u0 : List ℚ
  u1 : List ℚ
  a : List ℚ
  b : List ℚ

/-- Embeds the structural equation `b = 5 * a + u_1` (vectorized). -/
def structB (a u1 : List ℚ) : List ℚ :=
  (a.zip u1).map (fun p => 5 * p.1 + p.2)

/-- Embeds cell 9 after the draws: `a = u_0; b = 5 * a + u_1`. -/
def observational (u0 u1 : List ℚ) : ContState :=
  ⟨u0, u1, u0, structB u0 u1⟩

/-- Embeds cell 11: `a = np.array([1.5] * SAMPLE_SIZE); b = 5 * a + u_1`,
generalized to an arbitrary constant `c`. The noise `u_1` is the one
already bound in the state; it is not redrawn. -/
def interveneOnA (st : ContState) (c : ℚ) (n : ℕ) : ContState :=
  { st with a := List.replicate n c, b := structB (List.replicate n c) st.u1 }

/-- Embeds cell 13: `a = u_0; b = np.random.randn(SAMPLE_SIZE)`. The fresh
normal draw is passed in explicitly. -/
def interveneOnB (st : ContState) (fresh : List ℚ) : ContState :=
  { st with a := st.u0, b := fresh }

/-- `structB` over a constant `a`-vector is an affine map of the noise. -/
theorem structB_replicate (u1 : List ℚ) (c : ℚ) :
    structB (List.replicate u1.length c) u1 = u1.map (fun x => 5 * c + x) := by
  induction u1 with
  | nil => rfl
  | cons hd tl ih => simpa [structB, List.replicate_succ] using ih

/-- Claim C4: intervening on A with constant `c` leaves the previously
drawn `u_1` unchanged (reused, not redrawn) and yields `b[i] = 5*c + u1[i]`
for every index: `b` is the image of the pre-intervention `u_1` under the
affine map `x ↦ 5*c + x`. -/
theorem interveneOnA_spec (st : ContState) (c : ℚ) (n : ℕ)
    (h : st.u1.length = n) :
    (interveneOnA st c n).u1 = st.u1 ∧
    (interveneOnA st c n).b = st.u1.map (fun x => 5 * c + x) ∧
    (∀ (i : ℕ) (x : ℚ), st.u1[i]? = some x →
      ((interveneOnA st c n).b)[i]? = some (5 * c + x)) := by
  have hb : (interveneOnA st c n).b = st.u1.map (fun x => 5 * c + x) := by
    simp only [interveneOnA]
    rw [← h, structB_replicate]
  refine ⟨rfl, hb, fun i x hx => ?_⟩
  rw [hb]
  simp [List.getElem?_map, hx]

/-- Witness for C4: state with `u_1 = [2, -3]`, intervention constant
`c = 3/2`, `n = 2`. -/
theorem interveneOnA_spec_witness :
    (interveneOnA ⟨[0, 0], [2, -3], [0, 0], [2, -3]⟩ (3/2) 2).u1 = [2, -3] ∧
    (interveneOnA ⟨[0, 0], [2, -3], [0, 0], [2, -3]⟩ (3/2) 2).b =
      [(2:ℚ), -3].map (fun x => 5 * (3/2) + x) ∧
    (∀ (i : ℕ) (x : ℚ), ([(2:ℚ), -3][i]? = some x) →
      ((interveneOnA ⟨[0, 0], [2, -3], [0, 0], [2, -3]⟩ (3/2) 2).b)[i]? =
        some (5 * (3/2) + x)) :=
  interveneOnA_spec ⟨[0, 0], [2, -3], [0, 0], [2, -3]⟩ (3/2) 2 (by simp)

/-- Claim C5: intervening on B replaces `b` by the fresh draw, with the
same length; the structural equation `b = 5*a + u_1` is not used, and the
result does not depend on the state's `a`, `u_0` or `u_1` at all. -/
theorem interveneOnB_spec (st st' : ContState) (fresh : List ℚ) :
    (interveneOnB st fresh).b = fresh ∧
    (interveneOnB st fresh).b.length = fresh.length ∧
    (interveneOnB st fresh).b = (interveneOnB st' fresh).b := ⟨rfl, rfl, rfl⟩

/-! ## The ambient random generator (claim C6)

In the notebook, `BookSCM.__init__` builds `stats.uniform()` and
`stats.norm()` — frozen scipy distributions with no seed — and merely
stores `random_seed` in a field. `sample` draws via `.rvs`, which pulls
from numpy's process-level global generator; no code ever passes
`random_seed` to that generator, and the binary scenario contains no
`np.random.seed` call (only the continuous scenario's cell 9 does).
The global generator is modelled as a stream of values together with a
position; drawing `n` values returns the next `n` stream values and
advances the position. -/

/-- The process-level generator: a stream of values and a position. -/
structure RNG where
  stream : ℕ → ℚ
  pos : ℕ

/-- Drawing `n` values returns the next `n` stream values and advances the
position by `n`. -/
def RNG.draw (g : RNG) (n : ℕ) : List ℚ × RNG :=
  ((List.range n).map (fun i => g.stream (g.pos + i)), ⟨g.stream, g.pos + n⟩)

/-- Embeds a full call `scm.sample(n)` against the ambient generator `g`:
`u_0` and `u_1` are drawn in sequence from `g`, then the structural
equations are applied. The stored `random_seed` is never consulted,
exactly as in the source. -/
def BookSCM.sampleRun (scm : BookSCM) (g : RNG) (n : ℕ) :
    (List Bool × List Bool) × RNG :=
  let p := g.draw n
  let q := p.2.draw n
  (scm.sample p.1 q.1, q.2)

/-- Claim C6 evaluated at the failing input: two `BookSCM` instances built
with the same `random_seed = 42` and sampled one after the other from the
ambient generator (stream `i ↦ i`, position `0`) return different samples,
because no seeding ever happens and the second call sees the advanced
generator state. -/
theorem bookSCM_same_seed_differs :
    ((BookSCM.mk (some 42)).sampleRun ⟨fun i => (i : ℚ), 0⟩ 1).1 ≠
    ((BookSCM.mk (some 42)).sampleRun
      (((BookSCM.mk (some 42)).sampleRun ⟨fun i => (i : ℚ), 0⟩ 1).2) 1).1 := by
  norm_num [BookSCM.sampleRun, RNG.draw, BookSCM.sample, sampleA, sampleB,
    boolToRat, List.range_succ]
